import Mathlib

/-!
Shallow embedding of the systray2 library core (src/src/lib.rs): the error
taxonomy, the Application structure (menu-index counter, callback registry,
event receiver), menu construction (add_menu_item, add_menu_separator), icon
setting (set_icon_from_image_file), the dispatch loop (wait_for_message) and
the Drop implementation.

The platform collaborator (pub mod api, api::platform::Window) is not part of
the provided sources; it is modelled from the specification as an external
oracle that records a trace of native calls and whose fallible operations
succeed or fail according to response functions keyed by a call clock.

Rust HashMap<u32, Callback> is embedded as a function Nat -> Option Nat where
the value is a handler identifier; handler behaviour is supplied separately
as an environment HEnv mapping identifiers to state transformers (the Rust
boxed closures are defunctionalised, since a closure over the Application
cannot be stored inside the Application in a strictly positive way).  The
mpsc receiver is embedded as the list of events delivered before the
producer side closes; recv on the empty list models the RecvError of a
closed channel.  u32 arithmetic is Nat with reduction mod 2 ^ 32 where the
source increments the counter.
-/

namespace Systray

/-- The Error enum of src/src/lib.rs.  The boxed payload of the Error
variant is embedded as its message string. -/
inductive Err : Type where
  | osError : String → Err
  | notImplementedError : Err
  | unknownError : Err
  | wrapped : String → Err
  deriving DecidableEq, Repr

/-- Modelled from the spec: the native calls the collaborator (Platform
Window) exposes, recorded as a trace. -/
inductive WinCall : Type where
  | addMenuEntry : Nat → String → WinCall
  | addMenuSepEntry : Nat → WinCall
  | setIconFromFileCall : String → WinCall
  | setIconFromBufferCall : List Nat → Nat → Nat → WinCall
  | setIconFromImageBufferCall : List Nat → Nat → Nat → WinCall
  | setTooltipCall : String → WinCall
  | shutdownCall : WinCall
  | quitCall : WinCall
  deriving DecidableEq, Repr

/-- Modelled from the spec: the Platform Window collaborator.  Each fallible
native operation consults a response oracle at the current clock value
(none = success, some msg = OsError msg), bumps the clock and records the
call in the trace.  quit has no return value. -/
structure Window : Type where
  clock : Nat
  entryRes : Nat → Option String
  sepRes : Nat → Option String
  iconFileRes : Nat → Option String
  iconBufRes : Nat → Option String
  iconImageBufRes : Nat → Option String
  tooltipRes : Nat → Option String
  shutdownRes : Nat → Option String
  trace : List WinCall

/-- Modelled from the spec: perform one native call: record it, advance the
clock, and report the oracle outcome as a Result. -/
def Window.call (w : Window) (c : WinCall) (res : Nat → Option String) :
    Window × Except Err Unit :=
  ({ w with clock := w.clock + 1, trace := w.trace ++ [c] },
   match res w.clock with
   | none => Except.ok ()
   | some m => Except.error (Err.osError m))

/-- Modelled from the spec: add_menu_entry(index, label). -/
def Window.add_menu_entry (w : Window) (idx : Nat) (label : String) :
    Window × Except Err Unit :=
  w.call (WinCall.addMenuEntry idx label) w.entryRes

/-- Modelled from the spec: add_menu_separator(index). -/
def Window.add_menu_separator (w : Window) (idx : Nat) :
    Window × Except Err Unit :=
  w.call (WinCall.addMenuSepEntry idx) w.sepRes

/-- Modelled from the spec: set_icon_from_file(path). -/
def Window.set_icon_from_file (w : Window) (path : String) :
    Window × Except Err Unit :=
  w.call (WinCall.setIconFromFileCall path) w.iconFileRes

/-- Modelled from the spec: the Windows buffer-based icon setter. -/
def Window.set_icon_from_buffer (w : Window) (buf : List Nat) (width height : Nat) :
    Window × Except Err Unit :=
  w.call (WinCall.setIconFromBufferCall buf width height) w.iconBufRes

/-- Modelled from the spec: the Linux buffer-based icon setter. -/
def Window.set_icon_from_image_buffer (w : Window) (buf : List Nat) (width height : Nat) :
    Window × Except Err Unit :=
  w.call (WinCall.setIconFromImageBufferCall buf width height) w.iconImageBufRes

/-- Modelled from the spec: set_tooltip(text). -/
def Window.set_tooltip (w : Window) (text : String) :
    Window × Except Err Unit :=
  w.call (WinCall.setTooltipCall text) w.tooltipRes

/-- Modelled from the spec: shutdown(), tears down the native icon. -/
def Window.shutdown (w : Window) : Window × Except Err Unit :=
  w.call WinCall.shutdownCall w.shutdownRes

/-- Modelled from the spec: quit(), signals the native loop to stop;
no return value. -/
def Window.quit (w : Window) : Window :=
  { w with clock := w.clock + 1, trace := w.trace ++ [WinCall.quitCall] }

/-- The Application of src/src/lib.rs.  callback embeds the
HashMap<u32, Callback> as a map to handler identifiers; rx embeds the mpsc
receiver as the queue of menu_index events still to be delivered before the
producer closes. -/
structure Application : Type where
  window : Window
  menu_idx : Nat
  callback : Nat → Option Nat
  rx : List Nat

/-- Behaviour environment for the defunctionalised callbacks: a handler
identifier denotes a state transformer on the Application returning
Ok () or a boxed error (embedded as its message), exactly the shape of
type Callback in the source. -/
def HEnv : Type := Nat → Application → Application × Except String Unit

/-- HashMap::insert. -/
def mapInsert (m : Nat → Option Nat) (k v : Nat) : Nat → Option Nat :=
  fun j => if j = k then some v else m j

/-- HashMap::remove, restricted to the resulting map (the source pairs it
with contains_key, so the removed value is read off separately). -/
def mapRemove (m : Nat → Option Nat) (k : Nat) : Nat → Option Nat :=
  fun j => if j = k then none else m j

/-- Application::new with the collaborator window and the event stream the
platform thread will deliver. -/
def Application.new (w : Window) (events : List Nat) : Application :=
  { window := w, menu_idx := 0, callback := fun _ => none, rx := events }

/-- Application::add_menu_item.  The handler closure is passed as its
identifier hid.  Mirrors the source: read idx, call the collaborator
(the question-mark operator returns its error immediately), insert the
callback, increment the counter mod 2 ^ 32, return idx. -/
def Application.add_menu_item (a : Application) (item_name : String) (hid : Nat) :
    Application × Except Err Nat :=
  let idx := a.menu_idx
  match a.window.add_menu_entry idx item_name with
  | (w', Except.error e) => ({ a with window := w' }, Except.error e)
  | (w', Except.ok _) =>
      ({ a with window := w',
                callback := mapInsert a.callback idx hid,
                menu_idx := (a.menu_idx + 1) % 2 ^ 32 },
       Except.ok idx)

/-- Application::add_menu_separator. -/
def Application.add_menu_separator (a : Application) :
    Application × Except Err Nat :=
  let idx := a.menu_idx
  match a.window.add_menu_separator idx with
  | (w', Except.error e) => ({ a with window := w' }, Except.error e)
  | (w', Except.ok _) =>
      ({ a with window := w', menu_idx := (a.menu_idx + 1) % 2 ^ 32 },
       Except.ok idx)

/-- Application::set_icon_from_file. -/
def Application.set_icon_from_file (a : Application) (file : String) :
    Application × Except Err Unit :=
  let (w', r) := a.window.set_icon_from_file file
  ({ a with window := w' }, r)

/-- Application::set_tooltip. -/
def Application.set_tooltip (a : Application) (tooltip : String) :
    Application × Except Err Unit :=
  let (w', r) := a.window.set_tooltip tooltip
  ({ a with window := w' }, r)

/-- Application::quit. -/
def Application.quit (a : Application) : Application :=
  { a with window := a.window.quit }

/-- Application::shutdown. -/
def Application.shutdown (a : Application) : Application × Except Err Unit :=
  let (w', r) := a.window.shutdown
  ({ a with window := w' }, r)

/-- The Drop impl for Application: self.shutdown().ok() — the shutdown
result is computed and discarded.  The return type carries no error. -/
def Application.dropApp (a : Application) : Application :=
  (a.shutdown).1

/-- Rust Path::file_name of a path string: the component after the last
slash, with trailing slashes trimmed. -/
def fileNameOf (file : String) : List Char :=
  ((file.toList.reverse.dropWhile (fun c => c = '/')).takeWhile
    (fun c => c ≠ '/')).reverse

/-- Rust Path::extension: the part of the file name after its last dot;
none when there is no file name (empty, the current-dir or parent-dir
component), no dot, or the only dot is the leading one of a hidden file. -/
def extensionOf (file : String) : Option String :=
  let name := fileNameOf file
  if name = [] ∨ name = ['.', '.'] then none
  else
    let afterRev := name.reverse.takeWhile (fun c => c ≠ '.')
    if afterRev.length = name.length then none
    else if name.length = afterRev.length + 1 ∧ name.head? = some '.' then none
    else some (String.mk afterRev.reverse)

/-- One character of Rust str::to_lowercase, restricted to the ASCII
range (the only range the extension comparisons can distinguish). -/
def asciiLower (c : Char) : Char :=
  if 65 ≤ c.toNat ∧ c.toNat ≤ 90 then Char.ofNat (c.toNat + 32) else c

/-- extension().and_then(to_str).unwrap_or("").to_lowercase() from
set_icon_from_image_file. -/
def extLower (file : String) : String :=
  String.mk ((match extensionOf file with
              | some s => s
              | none => "").toList.map asciiLower)

/-- The conditional-compilation target of the buffer fallback in
set_icon_from_image_file. -/
inductive Platform : Type where
  | windows : Platform
  | linux : Platform
  | otherOs : Platform
  deriving DecidableEq, Repr

/-- A decoded image as used by the fallback: width(), height() and the raw
RGBA bytes of to_rgba8().into_raw(). -/
structure DynImage : Type where
  width : Nat
  height : Nat
  rgba : List Nat
  deriving DecidableEq, Repr

/-- The image crate as an oracle: ImageReader::open yields a reader token
or an io error message, decode yields the image or a decoding error
message. -/
structure ImgEnv : Type where
  openImage : String → Except String Nat
  decodeImage : Nat → Except String DynImage

/-- Application::set_icon_from_buffer (the Windows-only passthrough). -/
def Application.set_icon_from_buffer (a : Application) (buf : List Nat)
    (width height : Nat) : Application × Except Err Unit :=
  let (w', r) := a.window.set_icon_from_buffer buf width height
  ({ a with window := w' }, r)

/-- The Linux passthrough to the buffer-based icon setter. -/
def Application.set_icon_from_image_buffer (a : Application) (buf : List Nat)
    (width height : Nat) : Application × Except Err Unit :=
  let (w', r) := a.window.set_icon_from_image_buffer buf width height
  ({ a with window := w' }, r)

/-- Application::set_icon_from_image_file.  Dispatches on the lowercased
file extension; png or jpg or jpeg first try the direct native load and on
native rejection decode the image and deliver the RGBA buffer through the
platform-conditional setter; ico or bmp delegate to set_icon_from_file;
anything else is an unsupported-format error. -/
def Application.set_icon_from_image_file (plat : Platform) (env : ImgEnv)
    (a : Application) (file : String) : Application × Except Err Unit :=
  let extension := extLower file
  if extension = "png" ∨ extension = "jpg" ∨ extension = "jpeg" then
    match a.set_icon_from_file file with
    | (a1, Except.ok _) => (a1, Except.ok ())
    | (a1, Except.error _) =>
        match env.openImage file with
        | Except.error e =>
            (a1, Except.error (Err.osError ("Failed to open image: " ++ e)))
        | Except.ok rd =>
            match env.decodeImage rd with
            | Except.error e =>
                (a1, Except.error (Err.osError ("Failed to decode image: " ++ e)))
            | Except.ok img =>
                match plat with
                | Platform.windows =>
                    Application.set_icon_from_buffer a1 img.rgba img.width img.height
                | Platform.linux =>
                    Application.set_icon_from_image_buffer a1 img.rgba img.width img.height
                | Platform.otherOs => (a1, Except.error Err.notImplementedError)
  else if extension = "ico" ∨ extension = "bmp" then
    a.set_icon_from_file file
  else
    (a, Except.error (Err.osError ("Unsupported image format: " ++ extension)))

/-- The Application as the invoked handler sees it: the entry for i has
been removed from the registry (self.callback.remove in the source) before
the handler is called. -/
def midState (a : Application) (i : Nat) : Application :=
  { a with callback := mapRemove a.callback i }

/-- One iteration body of the dispatch loop in wait_for_message, after an
event with index i has been received: look the handler up, remove it
(the handler runs on midState), invoke it, re-insert it on success or
surface the wrapped error on failure.  The middle component is a ghost log
of the handler invocations the dispatcher performed (handlers cannot touch
it), used to state exactly-once properties. -/
def dispatchEvent (henv : HEnv) (a : Application) (i : Nat) :
    Application × List (Nat × Nat) × Except Err Unit :=
  match a.callback i with
  | none => (a, [], Except.ok ())
  | some h =>
      match henv h (midState a i) with
      | (a', Except.ok _) =>
          ({ a' with callback := mapInsert a'.callback i h }, [(i, h)], Except.ok ())
      | (a', Except.error e) => (a', [(i, h)], Except.error (Err.wrapped e))

/-- Application::wait_for_message, fuelled: recv pops the next queued
event, a closed channel (empty queue) makes the loop call quit and return
Ok, a handler error propagates out immediately, otherwise the loop
continues.  none means the fuel ran out. -/
def wait_for_message (henv : HEnv) :
    Nat → Application → Option (Application × List (Nat × Nat) × Except Err Unit)
  | 0, _ => none
  | fuel + 1, a =>
      match a.rx with
      | [] => some (a.quit, [], Except.ok ())
      | i :: rest =>
          let a1 : Application := { a with rx := rest }
          match dispatchEvent henv a1 i with
          | (a', log, Except.ok _) =>
              (wait_for_message henv fuel a').map
                (fun t => (t.1, log ++ t.2.1, t.2.2))
          | (a', log, Except.error e) => some (a', log, Except.error e)

/-- One call of the menu construction API: add_menu_item with a label and
a handler identifier, or add_menu_separator. -/
inductive MenuOp : Type where
  | item : String → Nat → MenuOp
  | sep : MenuOp
  deriving DecidableEq, Repr

/-- Run a sequence of menu construction calls, collecting the indices the
successful calls return (failed calls return an error and no index). -/
def runMenuOps : Application → List MenuOp → Application × List Nat
  | a, [] => (a, [])
  | a, op :: ops =>
      let step : Application × Option Nat :=
        match op with
        | MenuOp.item name hid =>
            match a.add_menu_item name hid with
            | (a1, Except.ok idx) => (a1, some idx)
            | (a1, Except.error _) => (a1, none)
        | MenuOp.sep =>
            match a.add_menu_separator with
            | (a1, Except.ok idx) => (a1, some idx)
            | (a1, Except.error _) => (a1, none)
      let rest := runMenuOps step.1 ops
      (rest.1, (match step.2 with
                | some idx => [idx]
                | none => []) ++ rest.2)

/-! Concrete fixtures used by witnesses and counterexamples. -/

/-- A collaborator whose native calls all succeed. -/
def okWin : Window :=
  { clock := 0, entryRes := fun _ => none, sepRes := fun _ => none,
    iconFileRes := fun _ => none, iconBufRes := fun _ => none,
    iconImageBufRes := fun _ => none, tooltipRes := fun _ => none,
    shutdownRes := fun _ => none, trace := [] }

/-- A collaborator that rejects the first menu-entry and menu-separator
creation and accepts everything afterwards. -/
def failFirstWin : Window :=
  { okWin with
    entryRes := fun n => if n = 0 then some "boom" else none,
    sepRes := fun n => if n = 0 then some "sepboom" else none }

/-- A handler environment where every handler leaves the Application
unchanged and succeeds. -/
def henvOk : HEnv := fun _ a => (a, Except.ok ())

/-- A handler environment where every handler fails with a fixed boxed
error. -/
def henvFail : HEnv := fun _ a => (a, Except.error "handler failed")

/-- An Application with one registered handler, identifier 3 at index 5,
and one queued event for index 5. -/
def appOne : Application :=
  { window := okWin, menu_idx := 6,
    callback := mapInsert (fun _ => none) 5 3, rx := [5] }

/-! Theorems settling the claims. -/

/-- Claim C1 counterexample: when native menu-entry creation fails, the
source returns the OS error before the statement menu_idx += 1 runs, so
the next-MenuIndex counter is NOT incremented — at this concrete input the
counter stays 0, refuting the claim that the index is consumed. -/
theorem c1_counter_not_incremented :
    ((Application.new failFirstWin []).add_menu_item "Exit" 0).2 =
        Except.error (Err.osError "boom") ∧
    ((Application.new failFirstWin []).add_menu_item "Exit" 0).1.menu_idx = 0 ∧
    ¬ ((Application.new failFirstWin []).add_menu_item "Exit" 0).1.menu_idx =
        (Application.new failFirstWin []).menu_idx + 1 := by
  refine ⟨rfl, rfl, ?_⟩
  intro h
  simp [Application.new, Application.add_menu_item, Window.add_menu_entry,
    Window.call, failFirstWin, okWin] at h

/-- Claim C1 (amended): when the collaborator rejects native menu-entry
creation, add_menu_item returns the OS-layer error, stores no handler, and
leaves the next-MenuIndex counter unchanged (the index is not consumed:
the early return precedes the increment). -/
theorem c1_amended_failure_keeps_counter (a : Application) (name : String)
    (hid : Nat) (m : String)
    (hfail : a.window.entryRes a.window.clock = some m) :
    (a.add_menu_item name hid).2 = Except.error (Err.osError m) ∧
    (a.add_menu_item name hid).1.menu_idx = a.menu_idx ∧
    (a.add_menu_item name hid).1.callback = a.callback := by
  simp [Application.add_menu_item, Window.add_menu_entry, Window.call, hfail]

/-- Witness for the amended claim C1 at a concrete input. -/
theorem c1_amended_witness :
    (Application.new failFirstWin []).window.entryRes
        (Application.new failFirstWin []).window.clock = some "boom" ∧
    ((Application.new failFirstWin []).add_menu_item "Exit" 0).1.menu_idx =
      (Application.new failFirstWin []).menu_idx :=
  ⟨rfl, (c1_amended_failure_keeps_counter (Application.new failFirstWin [])
      "Exit" 0 "boom" rfl).2.1⟩

/-- Claim C10: add_menu_item and add_menu_separator are atomic on failure:
a rejected native creation leaves the counter and the registry unchanged,
and the next successful call hands out the very index the failed call
attempted. -/
theorem c10_atomic_on_failure (a : Application) (name name2 : String)
    (hid hid2 : Nat) (m ms : String)
    (hfail : a.window.entryRes a.window.clock = some m)
    (hfailS : a.window.sepRes a.window.clock = some ms)
    (hok : (a.add_menu_item name hid).1.window.entryRes
        (a.add_menu_item name hid).1.window.clock = none) :
    ((a.add_menu_item name hid).1.menu_idx = a.menu_idx ∧
      (a.add_menu_item name hid).1.callback = a.callback) ∧
    (a.add_menu_separator.1.menu_idx = a.menu_idx ∧
      a.add_menu_separator.1.callback = a.callback) ∧
    ((a.add_menu_item name hid).1.add_menu_item name2 hid2).2 =
      Except.ok a.menu_idx := by
  have h1 : a.add_menu_item name hid =
      ({ a with window := (a.window.add_menu_entry a.menu_idx name).1 },
       Except.error (Err.osError m)) := by
    simp [Application.add_menu_item, Window.add_menu_entry, Window.call, hfail]
  refine ⟨?_, ?_, ?_⟩
  · rw [h1]; exact ⟨rfl, rfl⟩
  · simp [Application.add_menu_separator, Window.add_menu_separator,
      Window.call, hfailS]
  · rw [h1] at hok ⊢
    simp [Application.add_menu_item, Window.add_menu_entry, Window.call] at hok ⊢
    simp [hok]

/-- Witness for claim C10 at a concrete input: the first creation fails,
the retry succeeds and returns index 0 again. -/
theorem c10_witness :
    (Application.new failFirstWin []).window.entryRes
        (Application.new failFirstWin []).window.clock = some "boom" ∧
    (Application.new failFirstWin []).window.sepRes
        (Application.new failFirstWin []).window.clock = some "sepboom" ∧
    (((Application.new failFirstWin []).add_menu_item "a" 0).1.add_menu_item
        "b" 1).2 = Except.ok (Application.new failFirstWin []).menu_idx :=
  ⟨rfl, rfl,
    (c10_atomic_on_failure (Application.new failFirstWin []) "a" "b" 0 1
      "boom" "sepboom" rfl rfl rfl).2.2⟩

/-- Unfolding lemma: dispatching when a handler is registered reduces to
the match on the single handler invocation. -/
theorem dispatchEvent_eq_some (henv : HEnv) (a : Application) (i h : Nat)
    (hreg : a.callback i = some h) :
    dispatchEvent henv a i =
      (match henv h (midState a i) with
       | (a', Except.ok _) =>
           ({ a' with callback := mapInsert a'.callback i h },
            [(i, h)], Except.ok ())
       | (a', Except.error e) =>
           (a', [(i, h)], Except.error (Err.wrapped e))) := by
  unfold dispatchEvent
  rw [hreg]

/-- Unfolding lemma: dispatching with no registered handler is the
identity. -/
theorem dispatchEvent_eq_none (henv : HEnv) (a : Application) (i : Nat)
    (hnone : a.callback i = none) :
    dispatchEvent henv a i = (a, [], Except.ok ()) := by
  unfold dispatchEvent
  rw [hnone]

/-- Unfolding lemma: one loop iteration of wait_for_message on a non-empty
queue. -/
theorem wait_for_message_eq_cons (henv : HEnv) (fuel : Nat)
    (a : Application) (i : Nat) (rest : List Nat) (hrx : a.rx = i :: rest) :
    wait_for_message henv (fuel + 1) a =
      (match dispatchEvent henv { a with rx := rest } i with
       | (a', log, Except.ok _) =>
           (wait_for_message henv fuel a').map
             (fun t => (t.1, log ++ t.2.1, t.2.2))
       | (a', log, Except.error e) => some (a', log, Except.error e)) := by
  rw [wait_for_message, hrx]

/-- Claim C2: dispatching an event for index i with handler h registered
performs exactly one invocation of h (the ghost log is the single entry
(i, h)), the handler receives the Application itself (midState a i, with
exclusive access as a state transformer), and when it returns success it is
re-inserted under the same index i, so it remains registered afterwards. -/
theorem c2_dispatch_exactly_once (henv : HEnv) (a : Application) (i h : Nat)
    (hreg : a.callback i = some h) :
    (dispatchEvent henv a i).2.1 = [(i, h)] ∧
    (∀ a', henv h (midState a i) = (a', Except.ok ()) →
        dispatchEvent henv a i =
          ({ a' with callback := mapInsert a'.callback i h },
           [(i, h)], Except.ok ()) ∧
        (dispatchEvent henv a i).1.callback i = some h) := by
  have hd := dispatchEvent_eq_some henv a i h hreg
  constructor
  · rw [hd]
    rcases henv h (midState a i) with ⟨a', r⟩
    cases r <;> rfl
  · intro a' hh
    have he : dispatchEvent henv a i =
        ({ a' with callback := mapInsert a'.callback i h },
         [(i, h)], Except.ok ()) := by
      rw [hd, hh]
    refine ⟨he, ?_⟩
    rw [he]
    simp [mapInsert]

/-- Witness for claim C2 at a concrete input. -/
theorem c2_witness :
    appOne.callback 5 = some 3 ∧
    henvOk 3 (midState appOne 5) = (midState appOne 5, Except.ok ()) ∧
    (dispatchEvent henvOk appOne 5).2.1 = [(5, 3)] ∧
    (dispatchEvent henvOk appOne 5).1.callback 5 = some 3 := by
  have h := c2_dispatch_exactly_once henvOk appOne 5 3 rfl
  exact ⟨rfl, rfl, h.1, (h.2 (midState appOne 5) rfl).2⟩

/-- Claim C3: when the handler taken for the first queued event returns an
error, wait_for_message returns that error (wrapped by the From
conversion) at once: the final state is exactly the state the handler left
(no re-insertion into the registry), the invocation log holds only this
one invocation, and the remaining queued events are not handled. -/
theorem c3_handler_error_stops (henv : HEnv) (a : Application)
    (fuel i h : Nat) (rest : List Nat) (a' : Application) (e : String)
    (hrx : a.rx = i :: rest)
    (hreg : a.callback i = some h)
    (herr : henv h (midState { a with rx := rest } i) =
        (a', Except.error e)) :
    wait_for_message henv (fuel + 1) a =
      some (a', [(i, h)], Except.error (Err.wrapped e)) := by
  have hd : dispatchEvent henv { a with rx := rest } i =
      (a', [(i, h)], Except.error (Err.wrapped e)) := by
    rw [dispatchEvent_eq_some henv { a with rx := rest } i h hreg, herr]
  rw [wait_for_message_eq_cons henv fuel a i rest hrx, hd]

/-- Witness for claim C3 at a concrete input: one queued event behind the
failing one stays unhandled. -/
theorem c3_witness :
    ({ appOne with rx := [5, 7] } : Application).rx = 5 :: [7] ∧
    ({ appOne with rx := [5, 7] } : Application).callback 5 = some 3 ∧
    wait_for_message henvFail 9 { appOne with rx := [5, 7] } =
      some (midState { appOne with rx := [7] } 5, [(5, 3)],
        Except.error (Err.wrapped "handler failed")) :=
  ⟨rfl, rfl,
    c3_handler_error_stops henvFail { appOne with rx := [5, 7] } 8 5 3 [7]
      (midState { appOne with rx := [7] } 5) "handler failed" rfl rfl rfl⟩

/-- Claim C4: while a handler for index i is invoked, the state it runs on
(midState) holds no registry entry for i, and dispatching any event for an
index with no registry entry invokes nothing and changes nothing, so a
re-entrant event for i during the invocation cannot fire the handler a
second time. -/
theorem c4_no_reentrant_invocation (henv : HEnv) (a : Application)
    (i h : Nat) (hreg : a.callback i = some h) :
    (midState a i).callback i = none ∧
    (∀ s : Application, s.callback i = none →
        dispatchEvent henv s i = (s, [], Except.ok ())) ∧
    (∀ r, dispatchEvent henv a i = r →
        ∃ out, henv h (midState a i) = out ∧
          r = (match out with
               | (a', Except.ok _) =>
                   ({ a' with callback := mapInsert a'.callback i h },
                    [(i, h)], Except.ok ())
               | (a', Except.error e) =>
                   (a', [(i, h)], Except.error (Err.wrapped e)))) := by
  refine ⟨by simp [midState, mapRemove], ?_, ?_⟩
  · intro s hs
    exact dispatchEvent_eq_none henv s i hs
  · intro r hr
    refine ⟨henv h (midState a i), rfl, ?_⟩
    rw [← hr]
    exact dispatchEvent_eq_some henv a i h hreg

/-- Witness for claim C4 at a concrete input. -/
theorem c4_witness :
    appOne.callback 5 = some 3 ∧
    (midState appOne 5).callback 5 = none ∧
    dispatchEvent henvOk (midState appOne 5) 5 =
      (midState appOne 5, [], Except.ok ()) := by
  have h := c4_no_reentrant_invocation henvOk appOne 5 3 rfl
  exact ⟨rfl, h.1, h.2.1 (midState appOne 5) h.1⟩

/-- Claim C5: when the event channel is closed (no queued events remain
before the producer side is gone), wait_for_message calls quit on the
window and returns success; no handler is invoked. -/
theorem c5_closed_channel_quits (henv : HEnv) (fuel : Nat)
    (a : Application) (hclosed : a.rx = []) :
    wait_for_message henv (fuel + 1) a =
      some (a.quit, [], Except.ok ()) ∧
    a.quit.window.trace = a.window.trace ++ [WinCall.quitCall] := by
  constructor
  · unfold wait_for_message
    rw [hclosed]
  · rfl

/-- Witness for claim C5 at a concrete input. -/
theorem c5_witness :
    ({ appOne with rx := [] } : Application).rx = ([] : List Nat) ∧
    wait_for_message henvOk 4 { appOne with rx := [] } =
      some (({ appOne with rx := [] } : Application).quit, [],
        Except.ok ()) :=
  ⟨rfl, (c5_closed_channel_quits henvOk 3 { appOne with rx := [] } rfl).1⟩

/-- Claim C7: an event whose index has no registered handler is a no-op:
the dispatch body returns the Application unchanged with an empty
invocation log and success, and the loop goes on to the next event
exactly as if only the event had been popped. -/
theorem c7_unregistered_event_noop (henv : HEnv) (a : Application)
    (fuel i : Nat) (rest : List Nat)
    (hrx : a.rx = i :: rest)
    (hnone : a.callback i = none) :
    dispatchEvent henv { a with rx := rest } i =
      ({ a with rx := rest }, [], Except.ok ()) ∧
    wait_for_message henv (fuel + 1) a =
      wait_for_message henv fuel { a with rx := rest } := by
  have hd : dispatchEvent henv ({ a with rx := rest } : Application) i =
      ({ a with rx := rest }, [], Except.ok ()) :=
    dispatchEvent_eq_none henv ({ a with rx := rest } : Application) i hnone
  refine ⟨hd, ?_⟩
  rw [wait_for_message_eq_cons henv fuel a i rest hrx, hd]
  show (wait_for_message henv fuel ({ a with rx := rest } : Application)).map
      (fun t => (t.1, [] ++ t.2.1, t.2.2)) =
    wait_for_message henv fuel ({ a with rx := rest } : Application)
  rcases wait_for_message henv fuel ({ a with rx := rest } : Application)
    with _ | t
  · rfl
  · rfl

/-- Witness for claim C7 at a concrete input: index 2 (say a separator)
has no handler. -/
theorem c7_witness :
    ({ appOne with rx := [2] } : Application).rx = 2 :: [] ∧
    ({ appOne with rx := [2] } : Application).callback 2 = none ∧
    wait_for_message henvOk 6 { appOne with rx := [2] } =
      wait_for_message henvOk 5 { appOne with rx := [] } :=
  ⟨rfl, rfl,
    (c7_unregistered_event_noop henvOk { appOne with rx := [2] } 5 2 []
      rfl rfl).2⟩

/-- Step lemma: a successful add_menu_item returns the current counter
value and bumps it. -/
theorem add_menu_item_ok (a : Application) (name : String) (hid : Nat)
    (h : a.window.entryRes a.window.clock = none) :
    a.add_menu_item name hid =
      ({ a with window := (a.window.add_menu_entry a.menu_idx name).1,
                callback := mapInsert a.callback a.menu_idx hid,
                menu_idx := (a.menu_idx + 1) % 2 ^ 32 },
       Except.ok a.menu_idx) := by
  simp [Application.add_menu_item, Window.add_menu_entry, Window.call, h]

/-- Step lemma: a failed add_menu_item only records the native call. -/
theorem add_menu_item_fail (a : Application) (name : String) (hid : Nat)
    (m : String) (h : a.window.entryRes a.window.clock = some m) :
    a.add_menu_item name hid =
      ({ a with window := (a.window.add_menu_entry a.menu_idx name).1 },
       Except.error (Err.osError m)) := by
  simp [Application.add_menu_item, Window.add_menu_entry, Window.call, h]

/-- Step lemma: a successful add_menu_separator returns the current
counter value and bumps it. -/
theorem add_menu_separator_ok (a : Application)
    (h : a.window.sepRes a.window.clock = none) :
    a.add_menu_separator =
      ({ a with window := (a.window.add_menu_separator a.menu_idx).1,
                menu_idx := (a.menu_idx + 1) % 2 ^ 32 },
       Except.ok a.menu_idx) := by
  simp [Application.add_menu_separator, Window.add_menu_separator,
    Window.call, h]

/-- Step lemma: a failed add_menu_separator only records the native
call. -/
theorem add_menu_separator_fail (a : Application) (m : String)
    (h : a.window.sepRes a.window.clock = some m) :
    a.add_menu_separator =
      ({ a with window := (a.window.add_menu_separator a.menu_idx).1 },
       Except.error (Err.osError m)) := by
  simp [Application.add_menu_separator, Window.add_menu_separator,
    Window.call, h]

/-- Mapping a shifted addition over a range, used for the index
monotonicity induction. -/
theorem range_map_add_succ (m n : Nat) :
    (List.range (n + 1)).map (fun k => m + k) =
      m :: (List.range n).map (fun k => m + 1 + k) := by
  rw [List.range_succ_eq_map, List.map_cons, List.map_map]
  refine congrArg₂ _ (by omega) ?_
  refine List.map_congr_left ?_
  intro x _
  simp [Function.comp]
  omega

/-- The indices returned by a run of menu construction calls starting at
counter value a.menu_idx are consecutive from that value, as long as the
32-bit counter does not wrap. -/
theorem runMenuOps_indices (ops : List MenuOp) :
    ∀ a : Application,
      a.menu_idx + (runMenuOps a ops).2.length < 2 ^ 32 →
      (runMenuOps a ops).2 =
        (List.range (runMenuOps a ops).2.length).map
          (fun k => a.menu_idx + k) := by
  induction ops with
  | nil => intro a _; rfl
  | cons op ops ih =>
      intro a hlt
      cases op with
      | item name hid =>
          rcases hres : a.window.entryRes a.window.clock with _ | m
          · have hstep := add_menu_item_ok a name hid hres
            have hlen : (runMenuOps a (MenuOp.item name hid :: ops)).2 =
                a.menu_idx :: (runMenuOps (a.add_menu_item name hid).1 ops).2 := by
              rw [runMenuOps, hstep]
              rfl
            rw [hlen] at hlt ⊢
            rw [List.length_cons] at hlt
            have hm : ((a.add_menu_item name hid).1).menu_idx =
                a.menu_idx + 1 := by
              rw [hstep]
              show (a.menu_idx + 1) % 2 ^ 32 = a.menu_idx + 1
              omega
            have hih := ih (a.add_menu_item name hid).1 (by rw [hm]; omega)
            rw [hm] at hih
            rw [List.length_cons, range_map_add_succ, ← hih]
          · have hstep := add_menu_item_fail a name hid m hres
            have hlen : (runMenuOps a (MenuOp.item name hid :: ops)).2 =
                (runMenuOps (a.add_menu_item name hid).1 ops).2 := by
              rw [runMenuOps, hstep]
              rfl
            rw [hlen] at hlt ⊢
            have hm : ((a.add_menu_item name hid).1).menu_idx = a.menu_idx := by
              rw [hstep]
            have hih := ih (a.add_menu_item name hid).1 (by rw [hm]; exact hlt)
            rw [hm] at hih
            exact hih
      | sep =>
          rcases hres : a.window.sepRes a.window.clock with _ | m
          · have hstep := add_menu_separator_ok a hres
            have hlen : (runMenuOps a (MenuOp.sep :: ops)).2 =
                a.menu_idx :: (runMenuOps a.add_menu_separator.1 ops).2 := by
              rw [runMenuOps, hstep]
              rfl
            rw [hlen] at hlt ⊢
            rw [List.length_cons] at hlt
            have hm : (a.add_menu_separator.1).menu_idx = a.menu_idx + 1 := by
              rw [hstep]
              show (a.menu_idx + 1) % 2 ^ 32 = a.menu_idx + 1
              omega
            have hih := ih a.add_menu_separator.1 (by rw [hm]; omega)
            rw [hm] at hih
            rw [List.length_cons, range_map_add_succ, ← hih]
          · have hstep := add_menu_separator_fail a m hres
            have hlen : (runMenuOps a (MenuOp.sep :: ops)).2 =
                (runMenuOps a.add_menu_separator.1 ops).2 := by
              rw [runMenuOps, hstep]
              rfl
            rw [hlen] at hlt ⊢
            have hm : (a.add_menu_separator.1).menu_idx = a.menu_idx := by
              rw [hstep]
            have hih := ih a.add_menu_separator.1 (by rw [hm]; exact hlt)
            rw [hm] at hih
            exact hih

/-- Claim C6: over any sequence of add_menu_item and add_menu_separator
calls on one Application (counter starting at 0), the indices returned by
the successful calls are exactly 0, 1, 2, ... in order: strictly
increasing from 0 with no gaps and no reuse, whatever failures intervene
(short of 32-bit counter wraparound). -/
theorem c6_indices_strictly_increasing (ops : List MenuOp)
    (a : Application) (h0 : a.menu_idx = 0)
    (hlen : (runMenuOps a ops).2.length < 2 ^ 32) :
    (runMenuOps a ops).2 = List.range (runMenuOps a ops).2.length := by
  have h := runMenuOps_indices ops a (by omega)
  rw [h, h0]
  simp

/-- Witness for claim C6 at a concrete input: a failed separator, then a
successful item and a successful separator, which return 0 and 1. -/
theorem c6_witness :
    (Application.new failFirstWin []).menu_idx = 0 ∧
    (runMenuOps (Application.new failFirstWin [])
        [MenuOp.sep, MenuOp.item "a" 9, MenuOp.sep]).2.length < 2 ^ 32 ∧
    (runMenuOps (Application.new failFirstWin [])
        [MenuOp.sep, MenuOp.item "a" 9, MenuOp.sep]).2 =
      List.range (runMenuOps (Application.new failFirstWin [])
        [MenuOp.sep, MenuOp.item "a" 9, MenuOp.sep]).2.length :=
  ⟨rfl, by decide,
    c6_indices_strictly_increasing
      [MenuOp.sep, MenuOp.item "a" 9, MenuOp.sep]
      (Application.new failFirstWin []) rfl (by decide)⟩

/-- A collaborator that rejects every native icon-file load. -/
def failIconWin : Window :=
  { okWin with iconFileRes := fun _ => some "noicon" }

/-- A collaborator whose shutdown call fails. -/
def failShutdownWin : Window :=
  { okWin with shutdownRes := fun _ => some "sdboom" }

/-- An image environment whose open and decode both succeed, yielding a
1 by 1 RGBA image. -/
def env0 : ImgEnv :=
  { openImage := fun _ => Except.ok 0,
    decodeImage := fun _ => Except.ok { width := 1, height := 1, rgba := [1, 2, 3, 4] } }

/-- Claim C8: set_icon_from_image_file dispatches on the lowercased file
extension: ico and bmp delegate directly to set_icon_from_file; png, jpg
and jpeg first try the direct native load, succeed when it succeeds, and
only on native rejection decode the image to a raw RGBA buffer (width,
height, pixel bytes) delivered through the platform-conditional buffer
setter; any other extension fails with the descriptive unsupported-format
error. -/
theorem c8_icon_extension_dispatch (plat : Platform) (env : ImgEnv)
    (a : Application) (file : String) :
    ((extLower file = "ico" ∨ extLower file = "bmp") →
        Application.set_icon_from_image_file plat env a file =
          a.set_icon_from_file file) ∧
    ((extLower file = "png" ∨ extLower file = "jpg" ∨ extLower file = "jpeg") →
        (∀ a1, a.set_icon_from_file file = (a1, Except.ok ()) →
            Application.set_icon_from_image_file plat env a file =
              (a1, Except.ok ())) ∧
        (∀ a1 e rd img, a.set_icon_from_file file = (a1, Except.error e) →
            env.openImage file = Except.ok rd →
            env.decodeImage rd = Except.ok img →
            Application.set_icon_from_image_file plat env a file =
              (match plat with
               | Platform.windows =>
                   a1.set_icon_from_buffer img.rgba img.width img.height
               | Platform.linux =>
                   a1.set_icon_from_image_buffer img.rgba img.width img.height
               | Platform.otherOs =>
                   (a1, Except.error Err.notImplementedError)))) ∧
    (extLower file ≠ "png" → extLower file ≠ "jpg" → extLower file ≠ "jpeg" →
     extLower file ≠ "ico" → extLower file ≠ "bmp" →
        Application.set_icon_from_image_file plat env a file =
          (a, Except.error
            (Err.osError ("Unsupported image format: " ++ extLower file)))) := by
  refine ⟨?_, ?_, ?_⟩
  · rintro (h | h) <;> simp [Application.set_icon_from_image_file, h]
  · intro h
    constructor
    · intro a1 hok
      rcases h with h | h | h <;>
        simp [Application.set_icon_from_image_file, h, hok]
    · intro a1 e rd img hfail hopen hdec
      rcases h with h | h | h <;>
        simp [Application.set_icon_from_image_file, h, hfail, hopen, hdec]
  · intro h1 h2 h3 h4 h5
    simp [Application.set_icon_from_image_file, h1, h2, h3, h4, h5]

/-- Witness for claim C8 at concrete inputs: a bmp path delegates, an
uppercase png path rejected natively goes through the decoded buffer, and
a gif path is refused. -/
theorem c8_witness :
    (extLower "tray.BMP" = "bmp" ∧
      Application.set_icon_from_image_file Platform.linux env0
          (Application.new okWin []) "tray.BMP" =
        (Application.new okWin []).set_icon_from_file "tray.BMP") ∧
    ((Application.new okWin []).set_icon_from_file "x.jpg" =
        (((Application.new okWin []).set_icon_from_file "x.jpg").1,
          Except.ok ()) ∧
      Application.set_icon_from_image_file Platform.linux env0
          (Application.new okWin []) "x.jpg" =
        (((Application.new okWin []).set_icon_from_file "x.jpg").1,
          Except.ok ())) ∧
    (extLower "tray.PnG" = "png" ∧
      Application.set_icon_from_image_file Platform.linux env0
          (Application.new failIconWin []) "tray.PnG" =
        Application.set_icon_from_image_buffer
          ((Application.new failIconWin []).set_icon_from_file "tray.PnG").1
          [1, 2, 3, 4] 1 1) ∧
    (extLower "tray.gif" = "gif" ∧
      Application.set_icon_from_image_file Platform.linux env0
          (Application.new okWin []) "tray.gif" =
        (Application.new okWin [],
          Except.error (Err.osError
            ("Unsupported image format: " ++ extLower "tray.gif")))) := by
  refine ⟨⟨by decide, ?_⟩, ⟨rfl, ?_⟩, ⟨by decide, ?_⟩, ⟨by decide, ?_⟩⟩
  · exact (c8_icon_extension_dispatch Platform.linux env0
      (Application.new okWin []) "tray.BMP").1 (Or.inr (by decide))
  · exact ((c8_icon_extension_dispatch Platform.linux env0
      (Application.new okWin []) "x.jpg").2.1 (Or.inr (Or.inl (by decide)))).1
      ((Application.new okWin []).set_icon_from_file "x.jpg").1 rfl
  · exact ((c8_icon_extension_dispatch Platform.linux env0
      (Application.new failIconWin []) "tray.PnG").2.1 (Or.inl (by decide))).2
      ((Application.new failIconWin []).set_icon_from_file "tray.PnG").1
      (Err.osError "noicon") 0 { width := 1, height := 1, rgba := [1, 2, 3, 4] }
      rfl rfl rfl
  · exact (c8_icon_extension_dispatch Platform.linux env0
      (Application.new okWin []) "tray.gif").2.2
      (by decide) (by decide) (by decide) (by decide) (by decide)

/-- Claim C9: dropping an Application always attempts shutdown on the
window (the native call is recorded whatever its outcome), the rest of
the Application is untouched, and a shutdown error is discarded: drop
still returns the post-call state normally and its type carries no
error. -/
theorem c9_drop_attempts_shutdown (a : Application) :
    a.dropApp.window.trace = a.window.trace ++ [WinCall.shutdownCall] ∧
    a.dropApp.menu_idx = a.menu_idx ∧
    a.dropApp.callback = a.callback ∧
    a.dropApp.rx = a.rx ∧
    (∀ m, a.window.shutdownRes a.window.clock = some m →
        a.shutdown.2 = Except.error (Err.osError m) ∧
        a.dropApp = a.shutdown.1) := by
  refine ⟨rfl, rfl, rfl, rfl, ?_⟩
  intro m hm
  refine ⟨?_, rfl⟩
  simp [Application.shutdown, Window.shutdown, Window.call, hm]

/-- Witness for claim C9 at a concrete input whose shutdown fails. -/
theorem c9_witness :
    (Application.new failShutdownWin []).window.shutdownRes
        (Application.new failShutdownWin []).window.clock = some "sdboom" ∧
    (Application.new failShutdownWin []).dropApp.window.trace =
      (Application.new failShutdownWin []).window.trace
        ++ [WinCall.shutdownCall] ∧
    (Application.new failShutdownWin []).dropApp =
      (Application.new failShutdownWin []).shutdown.1 :=
  ⟨rfl, (c9_drop_attempts_shutdown (Application.new failShutdownWin [])).1,
    ((c9_drop_attempts_shutdown (Application.new failShutdownWin [])).2.2.2.2
      "sdboom" rfl).2⟩

end Systray
